import Mathlib

/-!
Shallow embedding of the geo-viz-explorer interaction core:
the selection manager (src/utils/selection.js), the data processing
utilities (src/utils/dataProcessing.js), the coordinate validation of
src/utils/projection.js and the widget-level zoom/update logic of
src/test-utils.js, together with theorems checking the specification
claims against these definitions.
-/

/-- A JavaScript number as used for coordinate components: either an
actual rational value or NaN.  Comparisons against NaN are false in
JavaScript, which the jlt and jgt helpers reproduce. -/
inductive JNum : Type where
  | num (q : ℚ)
  | nan
  deriving Repr, DecidableEq

/-- JavaScript strict less-than: false whenever either side is NaN. -/
def JNum.jlt : JNum → JNum → Bool
  | .num a, .num b => a < b
  | _, _ => false

/-- JavaScript strict greater-than: false whenever either side is NaN. -/
def JNum.jgt : JNum → JNum → Bool
  | .num a, .num b => b < a
  | _, _ => false

-- ======================================================================
-- SelectionManager (src/utils/selection.js)
-- ======================================================================

/-- State of a SelectionManager instance.  The JavaScript field
selectedMarkers is a Map from marker id to the stored marker object
(spread of the marker plus an injected _level field); only the id and
the _level field are ever consulted by the manager, so an entry is
embedded as a pair of the marker id and its stored _level.  Insertion
order of the Map is the list order. -/
structure SelectionManager where
  selectedMarkers : List (String × Nat)
  selectionHierarchyLevel : Option Nat
  maxSelections : Nat
  deriving Repr, DecidableEq

/-- Result object returned by selectMarker / deselectMarker.  The action
and reason fields hold the literal strings used by the source. -/
structure SelectResult where
  success : Bool
  action : Option String
  reason : Option String
  clearedPrevious : Bool
  deriving Repr, DecidableEq

/-- Result of isSelectionCompatible: the compatible flag together with
the reason string (null, already_selected, level_mismatch or
max_selections). -/
inductive Compat : Type where
  | compatibleNone
  | compatibleAlready
  | levelMismatch
  | maxSelections
  deriving Repr, DecidableEq

/-- Embedding of SelectionManager.isSelectionCompatible (selection.js
lines 30-60): empty selection is always compatible; an already selected
marker is compatible; a marker at a different level is level_mismatch;
a full selection is max_selections; otherwise compatible. -/
def SelectionManager.isSelectionCompatible (sm : SelectionManager)
    (markerId : String) (markerLevel : Nat) : Compat :=
  if sm.selectedMarkers.length = 0 then .compatibleNone
  else if sm.selectedMarkers.any (fun p => p.1 == markerId) then .compatibleAlready
  else if sm.selectionHierarchyLevel ≠ some markerLevel then .levelMismatch
  else if sm.selectedMarkers.length ≥ sm.maxSelections then .maxSelections
  else .compatibleNone

/-- Embedding of SelectionManager.deselectMarker (selection.js lines
129-152): a marker that is not selected is rejected with not_selected;
otherwise it is removed and the hierarchy level is reset to null when
the selection becomes empty. -/
def SelectionManager.deselectMarker (sm : SelectionManager)
    (markerId : String) : SelectionManager × SelectResult :=
  if sm.selectedMarkers.any (fun p => p.1 == markerId) then
    let remaining := sm.selectedMarkers.filter (fun p => p.1 != markerId)
    ({ selectedMarkers := remaining,
       selectionHierarchyLevel :=
         if remaining.length = 0 then none else sm.selectionHierarchyLevel,
       maxSelections := sm.maxSelections },
     { success := true, action := some "removed", reason := none,
       clearedPrevious := false })
  else
    (sm, { success := false, action := none, reason := some "not_selected",
           clearedPrevious := false })

/-- Embedding of SelectionManager.clearSelection (selection.js lines
173-181); the emit flag only controls event emission, which has no
observable effect on the embedded state. -/
def SelectionManager.clearSelection (sm : SelectionManager) : SelectionManager :=
  { selectedMarkers := [], selectionHierarchyLevel := none,
    maxSelections := sm.maxSelections }

/-- Embedding of SelectionManager.selectMarker (selection.js lines
69-122): toggle off an already selected marker; on level_mismatch clear
and restart with the new marker (action replaced); on max_selections
reject leaving the state unchanged; otherwise clear first when not
multi-selecting and a selection exists, then add the marker (action
added). -/
def SelectionManager.selectMarker (sm : SelectionManager) (markerId : String)
    (level : Nat) (isMultiSelect : Bool) : SelectionManager × SelectResult :=
  if sm.selectedMarkers.any (fun p => p.1 == markerId) then
    sm.deselectMarker markerId
  else
    match sm.isSelectionCompatible markerId level with
    | .levelMismatch =>
      let sm1 := sm.clearSelection
      ({ selectedMarkers := sm1.selectedMarkers ++ [(markerId, level)],
         selectionHierarchyLevel := some level,
         maxSelections := sm.maxSelections },
       { success := true, action := some "replaced", reason := none,
         clearedPrevious := true })
    | .maxSelections =>
      (sm, { success := false, action := none, reason := some "max_selections",
             clearedPrevious := false })
    | _ =>
      let sm1 := if isMultiSelect = false ∧ 0 < sm.selectedMarkers.length
                 then sm.clearSelection else sm
      ({ selectedMarkers := sm1.selectedMarkers ++ [(markerId, level)],
         selectionHierarchyLevel := some level,
         maxSelections := sm.maxSelections },
       { success := true, action := some "added", reason := none,
         clearedPrevious := false })

/-- Embedding of SelectionManager.pruneInvalidSelections (selection.js
lines 228-248): drop every selected id that is not among the existing
marker ids, reset the level when the selection becomes empty, and
report whether anything was removed. -/
def SelectionManager.pruneInvalidSelections (sm : SelectionManager)
    (existingMarkerIds : List String) : SelectionManager × Bool :=
  let remaining := sm.selectedMarkers.filter
    (fun p => existingMarkerIds.contains p.1)
  ({ selectedMarkers := remaining,
     selectionHierarchyLevel :=
       if remaining.length = 0 then none else sm.selectionHierarchyLevel,
     maxSelections := sm.maxSelections },
   remaining.length != sm.selectedMarkers.length)

/-- One call of the public mutating selection API, as used when running
an arbitrary call sequence against a SelectionManager. -/
inductive SelOp : Type where
  | select (markerId : String) (level : Nat) (isMultiSelect : Bool)
  | deselect (markerId : String)
  | clear
  | prune (existingMarkerIds : List String)
  deriving Repr, DecidableEq

/-- State reached after one API call, discarding the returned result. -/
def SelectionManager.applyOp (sm : SelectionManager) : SelOp → SelectionManager
  | .select markerId level multi => (sm.selectMarker markerId level multi).1
  | .deselect markerId => (sm.deselectMarker markerId).1
  | .clear => sm.clearSelection
  | .prune ids => (sm.pruneInvalidSelections ids).1

/-- A fresh SelectionManager as built by the constructor: empty
selection, null hierarchy level. -/
def SelectionManager.initial (maxSel : Nat) : SelectionManager :=
  { selectedMarkers := [], selectionHierarchyLevel := none,
    maxSelections := maxSel }

/-- State after running a sequence of API calls from the fresh state. -/
def SelectionManager.runOps (maxSel : Nat) (ops : List SelOp) : SelectionManager :=
  ops.foldl SelectionManager.applyOp (SelectionManager.initial maxSel)

/-- The selection-level invariant: the selection is empty exactly when
the hierarchy level is null, and every stored marker carries the
current hierarchy level as its _level. -/
def SelInv (sm : SelectionManager) : Prop :=
  (sm.selectedMarkers = [] ↔ sm.selectionHierarchyLevel = none) ∧
  ∀ p ∈ sm.selectedMarkers, some p.2 = sm.selectionHierarchyLevel

-- ======================================================================
-- Geo data model (src/utils/dataProcessing.js, src/utils/projection.js)
-- ======================================================================

/-- The geometry object of a node.  The coordinates field is none when
the source object has no coordinates array (or a non-array value), and
some of the component list otherwise; lists shorter than 2 model arrays
failing the length check. -/
structure GeoGeometry : Type where
  coordinates : Option (List JNum)
  deriving Repr, DecidableEq

/-- One entry of the properties array of a node. -/
structure GProperty : Type where
  propertyKey : String
  propertyValue : String
  deriving Repr, DecidableEq

/-- The filter criteria object: each key is none when absent (JavaScript
undefined) and some of the string otherwise; the string All is the
wildcard. -/
structure Filters : Type where
  region : Option String
  location : Option String
  datacentre : Option String
  deriving Repr, DecidableEq

mutual
/-- A GeoNode of the hierarchy tree: id, label, properties array,
optional geometry, the transient _filteredCount injected by filterData
(none when absent), and the ordered children. -/
inductive GeoNode : Type where
  | mk (id : String) (label : String) (properties : List GProperty)
       (geometry : Option GeoGeometry) (filteredCount : Option Nat)
       (children : GeoForest)
  deriving Repr, DecidableEq
/-- An ordered list of GeoNode children (a separate type so that all
tree recursions are structural). -/
inductive GeoForest : Type where
  | nil
  | cons (head : GeoNode) (tail : GeoForest)
  deriving Repr, DecidableEq
end

def GeoNode.id : GeoNode → String
  | .mk i _ _ _ _ _ => i

def GeoNode.label : GeoNode → String
  | .mk _ l _ _ _ _ => l

def GeoNode.properties : GeoNode → List GProperty
  | .mk _ _ p _ _ _ => p

def GeoNode.geometry : GeoNode → Option GeoGeometry
  | .mk _ _ _ g _ _ => g

def GeoNode.filteredCount : GeoNode → Option Nat
  | .mk _ _ _ _ fc _ => fc

def GeoNode.children : GeoNode → GeoForest
  | .mk _ _ _ _ _ cs => cs

def GeoForest.toList : GeoForest → List GeoNode
  | .nil => []
  | .cons n rest => n :: rest.toList

/-- The root data object supplied to the widget. -/
structure GeoData : Type where
  GeoLocations : GeoForest
  deriving Repr, DecidableEq

/-- Embedding of DataProcessing.getPropertyValue (dataProcessing.js
lines 95-100): first matching property value, or null. -/
def DataProcessing.getPropertyValue (node : GeoNode) (propertyKey : String) :
    Option String :=
  (node.properties.find? (fun p => p.propertyKey == propertyKey)).map
    (fun p => p.propertyValue)

/-- Embedding of DataProcessing.nodeMatchesRegion (dataProcessing.js
lines 72-80): the CategoryValue property or the label equals the
region. -/
def DataProcessing.nodeMatchesRegion (node : GeoNode) (region : String) : Bool :=
  DataProcessing.getPropertyValue node "CategoryValue" == some region ||
  node.label == region

/-- Embedding of DataProcessing.nodeMatchesLocation (dataProcessing.js
lines 85-87). -/
def DataProcessing.nodeMatchesLocation (node : GeoNode) (location : String) : Bool :=
  node.label == location

/-- Embedding of DataProcessing.matchesFilters (dataProcessing.js lines
36-67).  A filter key participates only when present and neither empty
(JavaScript falsy) nor the wildcard All, mirroring the source guard
region and region not equal to All. -/
def DataProcessing.matchesFilters (node : GeoNode) (filters : Filters) : Bool :=
  (match filters.region with
   | some r => if r != "" && r != "All"
               then DataProcessing.nodeMatchesRegion node r else true
   | none => true) &&
  (match filters.location with
   | some l => if l != "" && l != "All"
               then DataProcessing.nodeMatchesLocation node l else true
   | none => true) &&
  (match filters.datacentre with
   | some d => if d != "" && d != "All" then node.label == d else true
   | none => true)

mutual
/-- Embedding of DataProcessing.calculateCounts (dataProcessing.js
lines 13-28): a childless node counts 1 when it matches the filters and
0 otherwise; a node with children sums the counts of its children. -/
def DataProcessing.calculateCounts : GeoNode → Filters → Nat
  | .mk i l p g fc .nil, filters =>
      if DataProcessing.matchesFilters (.mk i l p g fc .nil) filters then 1 else 0
  | .mk _ _ _ _ _ (.cons c rest), filters =>
      DataProcessing.countForest (.cons c rest) filters
/-- Sum of calculateCounts over a forest (the loop over node.children). -/
def DataProcessing.countForest : GeoForest → Filters → Nat
  | .nil, _ => 0
  | .cons n rest, filters =>
      DataProcessing.calculateCounts n filters +
      DataProcessing.countForest rest filters
end

mutual
/-- The list of leaf descendants of a node (the node itself when it has
no children).  This is the measuring stick used to state the leaf-count
claim; it is not part of the source. -/
def GeoNode.leaves : GeoNode → List GeoNode
  | .mk i l p g fc .nil => [.mk i l p g fc .nil]
  | .mk _ _ _ _ _ (.cons c rest) => GeoForest.leavesF (.cons c rest)
/-- Leaf descendants of every node of a forest, in order. -/
def GeoForest.leavesF : GeoForest → List GeoNode
  | .nil => []
  | .cons n rest => n.leaves ++ GeoForest.leavesF rest
end

/-- The region-match guard of filterData (dataProcessing.js lines
161-162): true when the region filter is absent, falsy, the wildcard
All, or matched by the node. -/
def DataProcessing.filterMatchesRegion (node : GeoNode) (oRegion : Option String) :
    Bool :=
  match oRegion with
  | none => true
  | some r => r == "" || r == "All" || DataProcessing.nodeMatchesRegion node r

/-- The reduce of filterData (dataProcessing.js lines 175-177): each
child contributes its _filteredCount, with 0 and absent both replaced
by 1 (the JavaScript expression child._filteredCount or 1). -/
def GeoForest.sumFilteredCounts : GeoForest → Nat
  | .nil => 0
  | .cons n rest =>
      (match n.filteredCount with
       | some c => if c = 0 then 1 else c
       | none => 1) + rest.sumFilteredCounts

mutual
/-- Embedding of the inner filterNode of DataProcessing.filterData
(dataProcessing.js lines 157-199): leaves survive when they match the
filters (with _filteredCount 1); internal nodes survive with their
surviving children (and their count), or, at level 1 with a matching
region, as an empty placeholder with count 0; otherwise they are
dropped. -/
def DataProcessing.filterNode : Filters → Nat → GeoNode → Option GeoNode
  | filters, _, .mk i l p g fc .nil =>
      if DataProcessing.matchesFilters (.mk i l p g fc .nil) filters
      then some (.mk i l p g (some 1) .nil) else none
  | filters, level, .mk i l p g fc (.cons c rest) =>
      match DataProcessing.filterForest filters (level + 1) (.cons c rest) with
      | .cons c1 rest1 =>
          some (.mk i l p g
            (some (GeoForest.sumFilteredCounts (.cons c1 rest1)))
            (.cons c1 rest1))
      | .nil =>
          if DataProcessing.filterMatchesRegion (.mk i l p g fc (.cons c rest))
               filters.region && level == 1
          then some (.mk i l p g (some 0) .nil)
          else none
/-- filterNode mapped over a forest, dropping the nulls (the map and
filter of dataProcessing.js lines 166-168). -/
def DataProcessing.filterForest : Filters → Nat → GeoForest → GeoForest
  | _, _, .nil => .nil
  | filters, level, .cons n rest =>
      match DataProcessing.filterNode filters level n with
      | some n1 => .cons n1 (DataProcessing.filterForest filters level rest)
      | none => DataProcessing.filterForest filters level rest
end

/-- Embedding of DataProcessing.filterData (dataProcessing.js lines
154-209): filter every root node at level 1, keeping the rest of the
data object. -/
def DataProcessing.filterData (data : GeoData) (filters : Filters) : GeoData :=
  { GeoLocations := DataProcessing.filterForest filters 1 data.GeoLocations }

mutual
/-- Erase every _filteredCount in a node, recursively; two nodes are
structurally equal up to injected counts exactly when their erasures
are equal. -/
def GeoNode.stripCount : GeoNode → GeoNode
  | .mk i l p g _ cs => .mk i l p g none cs.stripCountF
/-- Erase every _filteredCount in a forest. -/
def GeoForest.stripCountF : GeoForest → GeoForest
  | .nil => .nil
  | .cons n rest => .cons n.stripCount rest.stripCountF
end

/-- Erase every _filteredCount in a data object. -/
def stripData (data : GeoData) : GeoData :=
  { GeoLocations := data.GeoLocations.stripCountF }

/-- The all-wildcard filter set. -/
def allWildcardFilters : Filters :=
  { region := some "All", location := some "All", datacentre := some "All" }

/-- The empty filter object. -/
def Filters.empty : Filters := { region := none, location := none, datacentre := none }

-- ======================================================================
-- Validation (dataProcessing.js validateData, projection.js)
-- ======================================================================

/-- One validation error, as pushed by validateData.  The path is the
index path of the node (the source builds the string GeoLocations[i]
followed by .children[j] segments; the list [i, j, ...] holds those
indices).  The longitude and latitude errors carry the offending
value, as the source interpolates it into the message. -/
inductive VError : Type where
  | missingId (path : List Nat)
  | missingLabel (path : List Nat)
  | missingGeometry (path : List Nat)
  | invalidCoordinates (path : List Nat)
  | invalidLongitude (path : List Nat) (lon : JNum)
  | invalidLatitude (path : List Nat) (lat : JNum)
  deriving Repr, DecidableEq

/-- The geometry and coordinate checks of validateData (dataProcessing.js
lines 389-403): missing geometry, then a missing / non-array / short
coordinates array, then the range checks on the first two components.
The range comparisons use JavaScript ordering, which is false on NaN. -/
def DataProcessing.coordErrors (path : List Nat) (g : Option GeoGeometry) :
    List VError :=
  match g with
  | none => [.missingGeometry path]
  | some geom =>
    match geom.coordinates with
    | none => [.invalidCoordinates path]
    | some (lon :: lat :: _) =>
        (if lon.jlt (.num (-180)) || lon.jgt (.num 180)
         then [.invalidLongitude path lon] else []) ++
        (if lat.jlt (.num (-90)) || lat.jgt (.num 90)
         then [.invalidLatitude path lat] else [])
    | some _ => [.invalidCoordinates path]

mutual
/-- Embedding of the inner validateNode of DataProcessing.validateData
(dataProcessing.js lines 380-410): errors for falsy id and label (the
empty string models a missing or empty field), then the geometry and
coordinate errors, then the children in order. -/
def DataProcessing.validateNode : GeoNode → List Nat → List VError
  | .mk i l _ g _ cs, path =>
      (if i == "" then [.missingId path] else []) ++
      (if l == "" then [.missingLabel path] else []) ++
      DataProcessing.coordErrors path g ++
      DataProcessing.validateForest cs path 0
/-- validateNode over a forest, numbering the children from the given
index. -/
def DataProcessing.validateForest : GeoForest → List Nat → Nat → List VError
  | .nil, _, _ => []
  | .cons n rest, path, idx =>
      DataProcessing.validateNode n (path ++ [idx]) ++
      DataProcessing.validateForest rest path (idx + 1)
end

/-- The result object of validateData. -/
structure ValidationResult : Type where
  isValid : Bool
  errors : List VError
  deriving Repr, DecidableEq

/-- Embedding of DataProcessing.validateData (dataProcessing.js lines
367-420) on a structurally well-typed data object: validate every root
node (the guards for null data and a non-array GeoLocations fall
outside the embedded domain), valid exactly when no error was
collected. -/
def DataProcessing.validateData (data : GeoData) : ValidationResult :=
  { isValid := (DataProcessing.validateForest data.GeoLocations [] 0).length == 0,
    errors := DataProcessing.validateForest data.GeoLocations [] 0 }

/-- Embedding of ProjectionUtils.isValidCoordinate (projection.js lines
88-106): non-numbers and NaN are rejected, then the range checks.  The
JNum type has no separate non-number constructor; NaN stands for every
value failing the typeof and isNaN guards. -/
def ProjectionUtils.isValidCoordinate (longitude latitude : JNum) : Bool :=
  match longitude, latitude with
  | .num lon, .num lat =>
      if lon < -180 || lon > 180 then false
      else if lat < -90 || lat > 90 then false
      else true
  | _, _ => false

mutual
/-- Wellformedness in the sense of claim C8: non-empty id and label and
numeric coordinates with longitude in [-180, 180] and latitude in
[-90, 90], at every node. -/
def goodNode : GeoNode → Bool
  | .mk i l _ g _ cs =>
      i != "" && l != "" &&
      (match g with
       | some geom =>
         (match geom.coordinates with
          | some (.num lon :: .num lat :: _) =>
              decide (-180 ≤ lon) && decide (lon ≤ 180) &&
              decide (-90 ≤ lat) && decide (lat ≤ 90)
          | _ => false)
       | none => false) &&
      goodForest cs
/-- goodNode at every node of a forest. -/
def goodForest : GeoForest → Bool
  | .nil => true
  | .cons n rest => goodNode n && goodForest rest
end

mutual
/-- The node shape of claim C10: non-empty id and label, and a
coordinates array whose first two components are both NaN, at every
node. -/
def nanNode : GeoNode → Bool
  | .mk i l _ g _ cs =>
      i != "" && l != "" &&
      (match g with
       | some geom =>
         (match geom.coordinates with
          | some (.nan :: .nan :: _) => true
          | _ => false)
       | none => false) &&
      nanForest cs
/-- nanNode at every node of a forest. -/
def nanForest : GeoForest → Bool
  | .nil => true
  | .cons n rest => nanNode n && nanForest rest
end

-- ======================================================================
-- Widget-level logic (src/test-utils.js)
-- ======================================================================

/-- The zoom thresholds configured in the GeoMapWidget constructor
(test-utils.js lines 363-367). -/
structure ZoomThresholds : Type where
  continent : ℚ
  country : ℚ
  city : ℚ
  deriving Repr, DecidableEq

/-- Default thresholds: continent 1, country 2.5, city 5. -/
def GeoMapWidget.defaultZoomThresholds : ZoomThresholds :=
  { continent := 1, country := 5 / 2, city := 5 }

/-- The zoom-scale to hierarchy-level mapping of GeoMapWidget.handleZoom
(test-utils.js lines 611-619): scale at least the city threshold gives
level 3, else at least the country threshold gives level 2, else
level 1. -/
def GeoMapWidget.zoomLevelForScale (t : ZoomThresholds) (k : ℚ) : Nat :=
  if k ≥ t.city then 3
  else if k ≥ t.country then 2
  else 1

mutual
/-- The inner collectNodes of DataProcessing.getNodesAtLevel
(dataProcessing.js lines 222-233): emit the node when the current depth
equals the target level, otherwise recurse into the children one level
deeper.  The _parent back-reference attached by the source is dropped;
no embedded consumer reads it. -/
def DataProcessing.collectAtLevel : GeoNode → Nat → Nat → List GeoNode
  | .mk i l p g fc cs, currentLevel, level =>
      if currentLevel = level then [.mk i l p g fc cs]
      else DataProcessing.collectForestAtLevel cs (currentLevel + 1) level
/-- collectNodes over a forest. -/
def DataProcessing.collectForestAtLevel : GeoForest → Nat → Nat → List GeoNode
  | .nil, _, _ => []
  | .cons n rest, currentLevel, level =>
      DataProcessing.collectAtLevel n currentLevel level ++
      DataProcessing.collectForestAtLevel rest currentLevel level
end

/-- Embedding of DataProcessing.getNodesAtLevel (dataProcessing.js lines
217-238); null data yields the empty list. -/
def DataProcessing.getNodesAtLevel (data : Option GeoData) (level : Nat) :
    List GeoNode :=
  match data with
  | none => []
  | some d => DataProcessing.collectForestAtLevel d.GeoLocations 1 level

mutual
/-- The inner findNode of DataProcessing.getChildrenOfNode
(dataProcessing.js lines 249-262): the children of the first node with
the given id in depth-first order, none when absent. -/
def DataProcessing.findChildrenIn : GeoNode → String → Option GeoForest
  | .mk i _ _ _ _ cs, nodeId =>
      if i == nodeId then some cs
      else DataProcessing.findChildrenInF cs nodeId
/-- findNode over a forest, first hit wins. -/
def DataProcessing.findChildrenInF : GeoForest → String → Option GeoForest
  | .nil, _ => none
  | .cons n rest, nodeId =>
      match DataProcessing.findChildrenIn n nodeId with
      | some r => some r
      | none => DataProcessing.findChildrenInF rest nodeId
end

/-- Embedding of DataProcessing.getChildrenOfNode (dataProcessing.js
lines 246-270); null data or an unknown id yields the empty list. -/
def DataProcessing.getChildrenOfNode (data : Option GeoData) (nodeId : String) :
    List GeoNode :=
  match data with
  | none => []
  | some d =>
    match DataProcessing.findChildrenInF d.GeoLocations nodeId with
    | some f => f.toList
    | none => []

/-- The nodesToShow computation of GeoMapWidget.renderMarkers
(test-utils.js lines 745-784): children of the current parent when
drilled in below level 1, otherwise the nodes at the current level;
each node paired with its calculateCounts count; then nodes without
geometry or coordinates, with invalid coordinates, or with count 0 and
no children are dropped. -/
def GeoMapWidget.visibleNodes (data : Option GeoData) (filters : Filters)
    (level : Nat) (parentId : Option String) : List (GeoNode × Nat) :=
  (match parentId with
   | some pid =>
     if 1 < level then
       (DataProcessing.getChildrenOfNode data pid).map
         (fun n => (n, DataProcessing.calculateCounts n filters))
     else
       (DataProcessing.getNodesAtLevel data level).map
         (fun n => (n, DataProcessing.calculateCounts n filters))
   | none =>
     (DataProcessing.getNodesAtLevel data level).map
       (fun n => (n, DataProcessing.calculateCounts n filters))).filter
    (fun p =>
      match p.1.geometry with
      | none => false
      | some geom =>
        match geom.coordinates with
        | some (lon :: lat :: _) =>
            ProjectionUtils.isValidCoordinate lon lat &&
            !(p.2 == 0 &&
              (match p.1.children with | .nil => true | .cons _ _ => false))
        | some _ => false
        | none => false)

/-- The widget state that the embedded operations read and write:
original and filtered data, active filters, zoom level, drill-down
parent, the visible marker list (with counts) and the selection
manager. -/
structure WidgetState : Type where
  originalData : Option GeoData
  filteredData : Option GeoData
  activeFilters : Filters
  currentZoomLevel : Nat
  currentParentId : Option String
  visibleMarkers : List (GeoNode × Nat)
  selectionManager : SelectionManager
  deriving Repr, DecidableEq

/-- The state effect of GeoMapWidget.renderMarkers (test-utils.js lines
745-890): recompute the visible markers, then prune the selection
against their ids.  Drawing is renderer work with no effect on the
embedded state. -/
def GeoMapWidget.renderMarkers (st : WidgetState) : WidgetState :=
  { st with
    visibleMarkers :=
      GeoMapWidget.visibleNodes st.filteredData st.activeFilters
        st.currentZoomLevel st.currentParentId,
    selectionManager :=
      (st.selectionManager.pruneInvalidSelections
        ((GeoMapWidget.visibleNodes st.filteredData st.activeFilters
            st.currentZoomLevel st.currentParentId).map
          (fun p => p.1.id))).1 }

/-- Embedding of GeoMapWidget.updateData (test-utils.js lines
1389-1405): validate first and return false on failure without touching
any state; on success store the data, recompute the filtered view and
re-render (populateFilters only rebuilds DOM dropdowns). -/
def GeoMapWidget.updateData (st : WidgetState) (newData : GeoData) :
    Bool × WidgetState :=
  if (DataProcessing.validateData newData).isValid then
    (true, GeoMapWidget.renderMarkers
      { st with
        originalData := some newData,
        filteredData := some (DataProcessing.filterData newData st.activeFilters) })
  else
    (false, st)

-- ======================================================================
-- Concrete sample data used by witnesses and counterexamples
-- ======================================================================

/-- A datacenter leaf labeled CityA. -/
def demoDC1 : GeoNode :=
  .mk "dc1" "CityA" [] (some { coordinates := some [.num 10, .num 10] }) none .nil

/-- A datacenter leaf labeled CityB. -/
def demoDC2 : GeoNode :=
  .mk "dc2" "CityB" [] (some { coordinates := some [.num 20, .num 20] }) none .nil

/-- A country holding the CityA datacenter. -/
def demoCountry1 : GeoNode :=
  .mk "c1" "CountryA" [] (some { coordinates := some [.num 10, .num 10] }) none
    (.cons demoDC1 .nil)

/-- A country holding the CityB datacenter. -/
def demoCountry2 : GeoNode :=
  .mk "c2" "CountryB" [] (some { coordinates := some [.num 20, .num 20] }) none
    (.cons demoDC2 .nil)

/-- A region with two countries, each holding one datacenter. -/
def demoRegion : GeoNode :=
  .mk "r1" "RegionA" [{ propertyKey := "CategoryValue", propertyValue := "EMEA" }]
    (some { coordinates := some [.num 15, .num 15] }) none
    (.cons demoCountry1 (.cons demoCountry2 .nil))

/-- A one-region data object that passes validation. -/
def demoData : GeoData := { GeoLocations := .cons demoRegion .nil }

/-- A single-node data object whose longitude 200 is out of range. -/
def badLonData : GeoData :=
  { GeoLocations :=
      .cons (.mk "n1" "BadNode" []
        (some { coordinates := some [.num 200, .num 10] }) none .nil) .nil }

/-- A two-level data object in which every coordinate component is NaN. -/
def nanData : GeoData :=
  { GeoLocations :=
      .cons (.mk "p1" "ParentNaN" []
        (some { coordinates := some [.nan, .nan] }) none
        (.cons (.mk "k1" "ChildNaN" []
          (some { coordinates := some [.nan, .nan] }) none .nil) .nil)) .nil }

-- ======================================================================
-- Selection invariant lemmas
-- ======================================================================

theorem selInv_initial (maxSel : Nat) : SelInv (SelectionManager.initial maxSel) := by
  constructor
  · simp [SelectionManager.initial]
  · intro p hp
    simp [SelectionManager.initial] at hp

theorem selInv_clearSelection (sm : SelectionManager) :
    SelInv sm.clearSelection := by
  constructor
  · simp [SelectionManager.clearSelection]
  · intro p hp
    simp [SelectionManager.clearSelection] at hp

theorem selInv_deselectMarker (sm : SelectionManager) (markerId : String)
    (h : SelInv sm) : SelInv (sm.deselectMarker markerId).1 := by
  unfold SelectionManager.deselectMarker
  by_cases hmem : sm.selectedMarkers.any (fun p => p.1 == markerId)
  · simp only [hmem, if_true]
    by_cases hnil :
        (sm.selectedMarkers.filter (fun p => p.1 != markerId)).length = 0
    · constructor
      · simp [hnil, List.length_eq_zero.mp hnil]
      · intro p hp
        simp only at hp
        rw [List.length_eq_zero.mp hnil] at hp
        simp at hp
    · have hne : sm.selectedMarkers.filter (fun p => p.1 != markerId) ≠ [] := by
        intro hc
        exact hnil (by rw [hc]; rfl)
      have hsel_ne : sm.selectedMarkers ≠ [] := by
        intro h0
        rw [h0] at hne
        simp at hne
      have hlvl : sm.selectionHierarchyLevel ≠ none := fun hn => hsel_ne (h.1.mpr hn)
      constructor
      · simp only [hnil, if_false]
        exact ⟨fun hc => absurd hc hne, fun hc => absurd hc hlvl⟩
      · intro p hp
        simp only [hnil, if_false]
        simp only at hp
        exact h.2 p (List.mem_of_mem_filter hp)
  · simp only [hmem]
    simp
    exact h


theorem selInv_pruneInvalidSelections (sm : SelectionManager)
    (ids : List String) (h : SelInv sm) :
    SelInv (sm.pruneInvalidSelections ids).1 := by
  unfold SelectionManager.pruneInvalidSelections
  by_cases hnil :
      (sm.selectedMarkers.filter (fun p => ids.contains p.1)).length = 0
  · have hfe : sm.selectedMarkers.filter (fun p => ids.contains p.1) = [] :=
      List.length_eq_zero.mp hnil
    constructor
    · simp only [hfe]
      simp
    · intro p hp
      simp only [hfe] at hp
      simp at hp
  · have hne : sm.selectedMarkers.filter (fun p => ids.contains p.1) ≠ [] := by
      intro hc
      exact hnil (by rw [hc]; rfl)
    have hsel_ne : sm.selectedMarkers ≠ [] := by
      intro h0
      rw [h0] at hne
      simp at hne
    have hlvl : sm.selectionHierarchyLevel ≠ none := fun hn => hsel_ne (h.1.mpr hn)
    constructor
    · simp only [hnil, if_false]
      exact ⟨fun hc => absurd hc hne, fun hc => absurd hc hlvl⟩
    · intro p hp
      simp only [hnil, if_false]
      simp only at hp
      exact h.2 p (List.mem_of_mem_filter hp)

theorem compat_fallthrough_level (sm : SelectionManager) (markerId : String)
    (level : Nat) (hne : sm.selectedMarkers ≠ [])
    (hnm : sm.selectedMarkers.any (fun p => p.1 == markerId) = false)
    (hc : sm.isSelectionCompatible markerId level ≠ .levelMismatch) :
    sm.selectionHierarchyLevel = some level := by
  unfold SelectionManager.isSelectionCompatible at hc
  split_ifs at hc with h1 h2 h3 h4 <;> simp_all

theorem selInv_selectMarker (sm : SelectionManager) (markerId : String)
    (level : Nat) (multi : Bool) (h : SelInv sm) :
    SelInv (sm.selectMarker markerId level multi).1 := by
  unfold SelectionManager.selectMarker
  by_cases hmem : sm.selectedMarkers.any (fun p => p.1 == markerId)
  · simp only [hmem, if_true]
    exact selInv_deselectMarker sm markerId h
  · simp only [hmem, Bool.false_eq_true, if_false]
    rcases hc : sm.isSelectionCompatible markerId level with _ | _ | _ | _
    rotate_left 2
    · constructor
      · simp [SelectionManager.clearSelection]
      · intro p hp
        simp [SelectionManager.clearSelection] at hp
        simp [hp]
    · exact h
    all_goals
      by_cases hcl : multi = false ∧ 0 < sm.selectedMarkers.length
    all_goals first
    | (rw [if_pos hcl]
       constructor
       · simp [SelectionManager.clearSelection]
       · intro p hp
         simp [SelectionManager.clearSelection] at hp
         simp [hp])
    | (rw [if_neg hcl]
       constructor
       · simp
       · intro p hp
         simp only [List.mem_append, List.mem_singleton] at hp
         rcases hp with hp | hp
         · by_cases hsel : sm.selectedMarkers = []
           · rw [hsel] at hp
             simp at hp
           · have hl : sm.selectionHierarchyLevel = some level :=
               compat_fallthrough_level sm markerId level hsel
                 (Bool.eq_false_iff.mpr hmem) (by rw [hc]; simp)
             have h2 := h.2 p hp
             rw [hl] at h2
             simpa using h2
         · simp [hp])

theorem selInv_applyOp (sm : SelectionManager) (op : SelOp) (h : SelInv sm) :
    SelInv (sm.applyOp op) := by
  cases op with
  | select markerId level multi => exact selInv_selectMarker sm markerId level multi h
  | deselect markerId => exact selInv_deselectMarker sm markerId h
  | clear => exact selInv_clearSelection sm
  | prune ids => exact selInv_pruneInvalidSelections sm ids h

theorem selInv_foldl : ∀ (ops : List SelOp) (sm : SelectionManager),
    SelInv sm → SelInv (ops.foldl SelectionManager.applyOp sm)
  | [], _, h => h
  | op :: ops, sm, h => selInv_foldl ops (sm.applyOp op) (selInv_applyOp sm op h)

/-- C1: for every sequence of selectMarker / deselectMarker /
clearSelection / pruneInvalidSelections calls starting from the empty
selection, the SelectionManager state satisfies: the selected-marker
set is empty if and only if selectionHierarchyLevel is null, and when
non-empty, every selected marker carries selectionHierarchyLevel as its
stored _level. -/
theorem claim_C1_selection_level_invariant :
    ∀ (maxSel : Nat) (ops : List SelOp), SelInv (SelectionManager.runOps maxSel ops) :=
  fun maxSel ops => selInv_foldl ops (SelectionManager.initial maxSel) (selInv_initial maxSel)

theorem any_eq_false_of_forall_ne (l : List (String × Nat)) (markerId : String)
    (hnm : ∀ p ∈ l, p.1 ≠ markerId) :
    l.any (fun p => p.1 == markerId) = false := by
  rw [Bool.eq_false_iff]
  intro hany
  rw [List.any_eq_true] at hany
  obtain ⟨p, hp, hpe⟩ := hany
  exact hnm p hp (by simpa using hpe)

/-- C2 counterexample: starting from the empty selection with
maxSelections 2, two multi-selects fill the selection at level 1; a
subsequent single (non-multi) select of a third marker at the same
level does not replace the selection: it fails with max_selections and
leaves the state unchanged, contradicting the claim that the
same-level non-multi select always clears and re-adds with action
added. -/
theorem claim_C2_counterexample :
    (SelectionManager.runOps 2
        [.select "a" 1 true, .select "b" 1 true]).selectMarker "c" 1 false =
      (SelectionManager.runOps 2 [.select "a" 1 true, .select "b" 1 true],
       { success := false, action := none, reason := some "max_selections",
         clearedPrevious := false }) ∧
    (SelectionManager.runOps 2
        [.select "a" 1 true, .select "b" 1 true]).selectedMarkers =
      [("a", 1), ("b", 1)] := by
  constructor <;> decide

/-- C2 (amended): for every non-empty current selection holding fewer
than maxSelections markers, every marker not already selected whose
level equals the current selection level, and multiSelect false,
selectMarker clears the existing selection, adds the marker as the sole
selected marker, and returns a successful result with action added.
(When the selection already holds maxSelections markers the call is
instead rejected with reason max_selections, as the counterexample
shows.) -/
theorem claim_C2_single_select_replaces_below_max (sm : SelectionManager)
    (markerId : String) (level : Nat)
    (hne : sm.selectedMarkers ≠ [])
    (hnm : ∀ p ∈ sm.selectedMarkers, p.1 ≠ markerId)
    (hlvl : sm.selectionHierarchyLevel = some level)
    (hlt : sm.selectedMarkers.length < sm.maxSelections) :
    sm.selectMarker markerId level false =
      ({ selectedMarkers := [(markerId, level)],
         selectionHierarchyLevel := some level,
         maxSelections := sm.maxSelections },
       { success := true, action := some "added", reason := none,
         clearedPrevious := false }) := by
  have hmem := any_eq_false_of_forall_ne sm.selectedMarkers markerId hnm
  have hlen : sm.selectedMarkers.length ≠ 0 := by
    simpa using fun hc => hne (List.length_eq_zero.mp hc)
  have hcompat : sm.isSelectionCompatible markerId level = .compatibleNone := by
    unfold SelectionManager.isSelectionCompatible
    rw [if_neg hlen, if_neg (by simp [hmem]), if_neg (by simp [hlvl]),
        if_neg (by omega)]
  unfold SelectionManager.selectMarker
  rw [if_neg (by simp [hmem]), hcompat]
  rw [if_pos ⟨rfl, by omega⟩]
  simp [SelectionManager.clearSelection]

theorem claim_C2_single_select_replaces_below_max_witness :
    SelectionManager.selectMarker
      { selectedMarkers := [("a", 1)], selectionHierarchyLevel := some 1,
        maxSelections := 10 } "b" 1 false =
      ({ selectedMarkers := [("b", 1)], selectionHierarchyLevel := some 1,
         maxSelections := 10 },
       { success := true, action := some "added", reason := none,
         clearedPrevious := false }) :=
  claim_C2_single_select_replaces_below_max
    { selectedMarkers := [("a", 1)], selectionHierarchyLevel := some 1,
      maxSelections := 10 } "b" 1 (by decide) (by decide) rfl (by decide)

/-- C3: for every non-empty current selection at level L1 and every
marker not already selected at a different level L2, with any
multiSelect flag, selectMarker yields a selection of exactly that
marker with selectionHierarchyLevel L2 and returns a successful result
with action replaced; the previous selection is never merged. -/
theorem claim_C3_cross_level_replace (sm : SelectionManager)
    (markerId : String) (l1 l2 : Nat) (multi : Bool)
    (hne : sm.selectedMarkers ≠ [])
    (hnm : ∀ p ∈ sm.selectedMarkers, p.1 ≠ markerId)
    (hlvl : sm.selectionHierarchyLevel = some l1)
    (hneq : l1 ≠ l2) :
    sm.selectMarker markerId l2 multi =
      ({ selectedMarkers := [(markerId, l2)],
         selectionHierarchyLevel := some l2,
         maxSelections := sm.maxSelections },
       { success := true, action := some "replaced", reason := none,
         clearedPrevious := true }) := by
  have hmem := any_eq_false_of_forall_ne sm.selectedMarkers markerId hnm
  have hlen : sm.selectedMarkers.length ≠ 0 := by
    simpa using fun hc => hne (List.length_eq_zero.mp hc)
  have hcompat : sm.isSelectionCompatible markerId l2 = .levelMismatch := by
    unfold SelectionManager.isSelectionCompatible
    rw [if_neg hlen, if_neg (by simp [hmem]), if_pos (by simp [hlvl, hneq])]
  unfold SelectionManager.selectMarker
  rw [if_neg (by simp [hmem]), hcompat]
  simp [SelectionManager.clearSelection]

theorem claim_C3_cross_level_replace_witness :
    SelectionManager.selectMarker
      { selectedMarkers := [("a", 1)], selectionHierarchyLevel := some 1,
        maxSelections := 10 } "b" 2 true =
      ({ selectedMarkers := [("b", 2)], selectionHierarchyLevel := some 2,
         maxSelections := 10 },
       { success := true, action := some "replaced", reason := none,
         clearedPrevious := true }) :=
  claim_C3_cross_level_replace
    { selectedMarkers := [("a", 1)], selectionHierarchyLevel := some 1,
      maxSelections := 10 } "b" 1 2 true (by decide) (by decide) rfl (by decide)

/-- C4: with maxSelections 2, selecting three distinct markers at the
same hierarchy level with multiSelect true yields a selection of
exactly the first two markers, and the third call returns a failure
with reason max_selections leaving the state unchanged. -/
theorem claim_C4_max_selection_boundary (a b c : String) (lvl : Nat)
    (hab : a ≠ b) (hac : a ≠ c) (hbc : b ≠ c) :
    (((SelectionManager.initial 2).selectMarker a lvl true).1.selectMarker
        b lvl true).1.selectedMarkers = [(a, lvl), (b, lvl)] ∧
    ((((SelectionManager.initial 2).selectMarker a lvl true).1.selectMarker
        b lvl true).1.selectMarker c lvl true).2 =
      { success := false, action := none, reason := some "max_selections",
        clearedPrevious := false } ∧
    ((((SelectionManager.initial 2).selectMarker a lvl true).1.selectMarker
        b lvl true).1.selectMarker c lvl true).1 =
      (((SelectionManager.initial 2).selectMarker a lvl true).1.selectMarker
        b lvl true).1 := by
  have h1 : ((SelectionManager.initial 2).selectMarker a lvl true).1 =
      { selectedMarkers := [(a, lvl)], selectionHierarchyLevel := some lvl,
        maxSelections := 2 } := by
    simp [SelectionManager.selectMarker, SelectionManager.initial,
      SelectionManager.isSelectionCompatible]
  have h2 : (SelectionManager.selectMarker
      { selectedMarkers := [(a, lvl)], selectionHierarchyLevel := some lvl,
        maxSelections := 2 } b lvl true).1 =
      { selectedMarkers := [(a, lvl), (b, lvl)],
        selectionHierarchyLevel := some lvl, maxSelections := 2 } := by
    simp [SelectionManager.selectMarker, SelectionManager.isSelectionCompatible,
      hab]
  have h3 : SelectionManager.selectMarker
      { selectedMarkers := [(a, lvl), (b, lvl)],
        selectionHierarchyLevel := some lvl, maxSelections := 2 } c lvl true =
      ({ selectedMarkers := [(a, lvl), (b, lvl)],
         selectionHierarchyLevel := some lvl, maxSelections := 2 },
       { success := false, action := none, reason := some "max_selections",
         clearedPrevious := false }) := by
    have hcompat : SelectionManager.isSelectionCompatible
        { selectedMarkers := [(a, lvl), (b, lvl)],
          selectionHierarchyLevel := some lvl, maxSelections := 2 } c lvl =
        .maxSelections := by
      unfold SelectionManager.isSelectionCompatible
      rw [if_neg (by simp), if_neg (by simp [hac, hbc]), if_neg (by simp),
          if_pos (by simp)]
    unfold SelectionManager.selectMarker
    rw [if_neg (by simp [hac, hbc]), hcompat]
  rw [h1, h2, h3]
  exact ⟨rfl, rfl, rfl⟩

theorem claim_C4_max_selection_boundary_witness :
    (((SelectionManager.initial 2).selectMarker "m1" 1 true).1.selectMarker
        "m2" 1 true).1.selectedMarkers = [("m1", 1), ("m2", 1)] ∧
    ((((SelectionManager.initial 2).selectMarker "m1" 1 true).1.selectMarker
        "m2" 1 true).1.selectMarker "m3" 1 true).2 =
      { success := false, action := none, reason := some "max_selections",
        clearedPrevious := false } ∧
    ((((SelectionManager.initial 2).selectMarker "m1" 1 true).1.selectMarker
        "m2" 1 true).1.selectMarker "m3" 1 true).1 =
      (((SelectionManager.initial 2).selectMarker "m1" 1 true).1.selectMarker
        "m2" 1 true).1 :=
  claim_C4_max_selection_boundary "m1" "m2" "m3" 1 (by decide) (by decide)
    (by decide)

-- ======================================================================
-- Zoom mapping (C6)
-- ======================================================================

/-- C6: the zoom-scale-to-level mapping is a pure function of the scale
with inclusive lower-bound thresholds (defaults country 2.5, city 5):
scale at least 5 maps to level 3, otherwise scale at least 2.5 maps to
level 2, otherwise level 1; in particular scale 1 gives level 1,
scale 2.5 gives level 2, scale 4.99 gives level 2 and scale 5 gives
level 3. -/
theorem claim_C6_zoom_level_mapping :
    GeoMapWidget.zoomLevelForScale GeoMapWidget.defaultZoomThresholds 1 = 1 ∧
    GeoMapWidget.zoomLevelForScale GeoMapWidget.defaultZoomThresholds (5 / 2) = 2 ∧
    GeoMapWidget.zoomLevelForScale GeoMapWidget.defaultZoomThresholds (499 / 100) = 2 ∧
    GeoMapWidget.zoomLevelForScale GeoMapWidget.defaultZoomThresholds 5 = 3 ∧
    (∀ k : ℚ, GeoMapWidget.zoomLevelForScale GeoMapWidget.defaultZoomThresholds k =
       if 5 ≤ k then 3 else if 5 / 2 ≤ k then 2 else 1) := by
  refine ⟨?_, ?_, ?_, ?_, fun k => ?_⟩ <;>
    simp [GeoMapWidget.zoomLevelForScale, GeoMapWidget.defaultZoomThresholds,
      ge_iff_le] <;> norm_num

-- ======================================================================
-- Leaf counts (C7)
-- ======================================================================

mutual
theorem calculateCounts_eq_leaves : ∀ (n : GeoNode) (filters : Filters),
    DataProcessing.calculateCounts n filters =
      (n.leaves.filter (fun x => DataProcessing.matchesFilters x filters)).length
  | .mk i l p g fc .nil, filters => by
      simp only [DataProcessing.calculateCounts, GeoNode.leaves]
      by_cases h : DataProcessing.matchesFilters (.mk i l p g fc .nil) filters
      · simp [h]
      · simp [h]
  | .mk i l p g fc (.cons c rest), filters => by
      simp only [DataProcessing.calculateCounts, GeoNode.leaves]
      exact countForest_eq_leavesF (.cons c rest) filters
theorem countForest_eq_leavesF : ∀ (f : GeoForest) (filters : Filters),
    DataProcessing.countForest f filters =
      ((GeoForest.leavesF f).filter
        (fun x => DataProcessing.matchesFilters x filters)).length
  | .nil, _ => rfl
  | .cons n rest, filters => by
      simp only [DataProcessing.countForest, GeoForest.leavesF,
        List.filter_append, List.length_append]
      rw [calculateCounts_eq_leaves n filters, countForest_eq_leavesF rest filters]
end

/-- C7: the count computed by calculateCounts equals the number of leaf
descendants matching the filters; concretely, on a region with two
countries each holding one datacenter, the count is 2 under empty
filters and 1 under a datacentre filter naming one of the city
labels. -/
theorem claim_C7_leaf_count_correctness :
    (∀ (n : GeoNode) (filters : Filters),
       DataProcessing.calculateCounts n filters =
         (n.leaves.filter
           (fun x => DataProcessing.matchesFilters x filters)).length) ∧
    DataProcessing.calculateCounts demoRegion Filters.empty = 2 ∧
    DataProcessing.calculateCounts demoRegion
      { region := none, location := none, datacentre := some "CityA" } = 1 :=
  ⟨calculateCounts_eq_leaves, by decide, by decide⟩

-- ======================================================================
-- Filter round trip (C5)
-- ======================================================================

theorem matchesFilters_allWild (n : GeoNode) :
    DataProcessing.matchesFilters n allWildcardFilters = true := rfl

mutual
theorem filterNode_allWild : ∀ (n : GeoNode) (level : Nat),
    ∃ n1, DataProcessing.filterNode allWildcardFilters level n = some n1 ∧
          n1.stripCount = n.stripCount
  | .mk i l p g fc .nil, level => by
      refine ⟨.mk i l p g (some 1) .nil, ?_, rfl⟩
      simp only [DataProcessing.filterNode]
      rw [if_pos (matchesFilters_allWild (.mk i l p g fc .nil))]
  | .mk i l p g fc (.cons c rest), level => by
      have hf := filterForest_allWild (.cons c rest) (level + 1)
      simp only [DataProcessing.filterNode]
      cases hres : DataProcessing.filterForest allWildcardFilters (level + 1)
          (.cons c rest) with
      | nil =>
          rw [hres] at hf
          simp [GeoForest.stripCountF] at hf
      | cons c1 rest1 =>
          refine ⟨.mk i l p g
            (some (GeoForest.sumFilteredCounts (.cons c1 rest1)))
            (.cons c1 rest1), rfl, ?_⟩
          rw [hres] at hf
          simp only [GeoNode.stripCount]
          rw [hf]
theorem filterForest_allWild : ∀ (f : GeoForest) (level : Nat),
    (DataProcessing.filterForest allWildcardFilters level f).stripCountF =
      f.stripCountF
  | .nil, _ => rfl
  | .cons n rest, level => by
      obtain ⟨n1, heq, hstrip⟩ := filterNode_allWild n level
      simp only [DataProcessing.filterForest]
      rw [heq]
      simp only [GeoForest.stripCountF]
      rw [hstrip, filterForest_allWild rest level]
end

/-- C5: filtering with the all-wildcard filter set returns a tree
structurally equal to the input tree (same nodes, same order, same
children), differing only in the injected _filteredCount fields:
erasing those fields from the output gives back the erasure of the
input. -/
theorem claim_C5_filter_round_trip :
    ∀ d : GeoData,
      stripData (DataProcessing.filterData d allWildcardFilters) = stripData d := by
  intro d
  simp only [stripData, DataProcessing.filterData]
  rw [filterForest_allWild d.GeoLocations 1]

-- ======================================================================
-- Validation (C8, C10) and updateData (C9)
-- ======================================================================

mutual
theorem validateNode_good : ∀ (n : GeoNode) (path : List Nat),
    goodNode n = true → DataProcessing.validateNode n path = []
  | .mk i l p g fc cs, path => by
      intro hg
      simp only [goodNode, Bool.and_eq_true] at hg
      obtain ⟨⟨⟨hi, hl⟩, hcoord⟩, hcs⟩ := hg
      simp only [DataProcessing.validateNode]
      rw [if_neg (by simpa using hi), if_neg (by simpa using hl),
        validateForest_good cs path 0 hcs]
      suffices hce : DataProcessing.coordErrors path g = [] by simp [hce]
      rcases g with _ | ⟨oc⟩
      · simp at hcoord
      · rcases oc with _ | ⟨_ | ⟨c0, _ | ⟨c1, cs4⟩⟩⟩
        · simp at hcoord
        · simp at hcoord
        · rcases c0 with q0 | _ <;> simp at hcoord
        · rcases c0 with q0 | _
          · rcases c1 with q1 | _
            · simp only [Bool.and_eq_true, decide_eq_true_eq] at hcoord
              obtain ⟨⟨⟨h1, h2⟩, h3⟩, h4⟩ := hcoord
              simp only [DataProcessing.coordErrors, JNum.jlt, JNum.jgt]
              rw [if_neg (by simp; exact ⟨by linarith, by linarith⟩),
                  if_neg (by simp; exact ⟨by linarith, by linarith⟩)]
              rfl
            · simp at hcoord
          · simp at hcoord
theorem validateForest_good : ∀ (f : GeoForest) (path : List Nat) (idx : Nat),
    goodForest f = true → DataProcessing.validateForest f path idx = []
  | .nil, _, _ => fun _ => rfl
  | .cons n rest, path, idx => by
      intro h
      simp only [goodForest, Bool.and_eq_true] at h
      simp only [DataProcessing.validateForest]
      rw [validateNode_good n (path ++ [idx]) h.1,
          validateForest_good rest path (idx + 1) h.2]
      rfl
end

/-- C8: validateData collects errors recursively without
short-circuiting: a node with coordinates [200, 10] produces exactly
the validation error citing the out-of-range longitude 200 at its
path, and every tree whose nodes all have a non-empty id, a label and
coordinates with longitude in [-180, 180] and latitude in [-90, 90]
yields zero errors and is reported valid. -/
theorem claim_C8_validation :
    (DataProcessing.validateData badLonData).errors =
      [.invalidLongitude [0] (.num 200)] ∧
    (DataProcessing.validateData badLonData).isValid = false ∧
    (∀ d : GeoData, goodForest d.GeoLocations = true →
       DataProcessing.validateData d = { isValid := true, errors := [] }) :=
  ⟨by decide, by decide, fun d hd => by
    simp [DataProcessing.validateData, validateForest_good d.GeoLocations [] 0 hd]⟩

theorem claim_C8_validation_witness :
    DataProcessing.validateData demoData = { isValid := true, errors := [] } ∧
    (DataProcessing.validateData badLonData).isValid = false :=
  ⟨claim_C8_validation.2.2 demoData (by decide), claim_C8_validation.2.1⟩

mutual
theorem validateNode_nan : ∀ (n : GeoNode) (path : List Nat),
    nanNode n = true → DataProcessing.validateNode n path = []
  | .mk i l p g fc cs, path => by
      intro hg
      simp only [nanNode, Bool.and_eq_true] at hg
      obtain ⟨⟨⟨hi, hl⟩, hcoord⟩, hcs⟩ := hg
      simp only [DataProcessing.validateNode]
      rw [if_neg (by simpa using hi), if_neg (by simpa using hl),
        validateForest_nan cs path 0 hcs]
      suffices hce : DataProcessing.coordErrors path g = [] by simp [hce]
      rcases g with _ | ⟨oc⟩
      · simp at hcoord
      · rcases oc with _ | ⟨_ | ⟨c0, _ | ⟨c1, cs4⟩⟩⟩
        · simp at hcoord
        · simp at hcoord
        · rcases c0 with q0 | _ <;> simp at hcoord
        · rcases c0 with q0 | _
          · simp at hcoord
          · rcases c1 with q1 | _
            · simp at hcoord
            · rfl
theorem validateForest_nan : ∀ (f : GeoForest) (path : List Nat) (idx : Nat),
    nanForest f = true → DataProcessing.validateForest f path idx = []
  | .nil, _, _ => fun _ => rfl
  | .cons n rest, path, idx => by
      intro h
      simp only [nanForest, Bool.and_eq_true] at h
      simp only [DataProcessing.validateForest]
      rw [validateNode_nan n (path ++ [idx]) h.1,
          validateForest_nan rest path (idx + 1) h.2]
      rfl
end

/-- C10: validateData reports no longitude or latitude error for NaN
coordinate components, because the JavaScript range comparisons are
false on NaN: a coordinates array starting with NaN yields no longitude
error at all, a tree whose nodes all carry [NaN, NaN] coordinates (with
non-empty ids and labels) is reported valid with zero errors, yet
isValidCoordinate, which gates display, rejects NaN in either
position. -/
theorem claim_C10_nan_passes_validation :
    (∀ d : GeoData, nanForest d.GeoLocations = true →
       DataProcessing.validateData d = { isValid := true, errors := [] }) ∧
    (∀ (path : List Nat) (lat : JNum) (rest : List JNum),
       DataProcessing.coordErrors path
         (some { coordinates := some (.nan :: lat :: rest) }) =
         (if lat.jlt (.num (-90)) || lat.jgt (.num 90)
          then [.invalidLatitude path lat] else [])) ∧
    (∀ lat : JNum, ProjectionUtils.isValidCoordinate .nan lat = false) ∧
    (∀ lon : JNum, ProjectionUtils.isValidCoordinate lon .nan = false) := by
  refine ⟨fun d hd => by
    simp [DataProcessing.validateData, validateForest_nan d.GeoLocations [] 0 hd],
    fun path lat rest => ?_, fun lat => rfl, fun lon => ?_⟩
  · simp only [DataProcessing.coordErrors]
    rw [show (JNum.jlt .nan (.num (-180)) || JNum.jgt .nan (.num 180)) = false
      from rfl]
    simp
  · cases lon <;> rfl

theorem claim_C10_nan_passes_validation_witness :
    DataProcessing.validateData nanData = { isValid := true, errors := [] } ∧
    ProjectionUtils.isValidCoordinate .nan (.num 10) = false :=
  ⟨claim_C10_nan_passes_validation.1 nanData (by decide),
   claim_C10_nan_passes_validation.2.2.1 (.num 10)⟩

/-- C9: for every input that fails validation, updateData returns false
and leaves the entire prior widget state untouched: original data,
filtered data, filters, zoom state, visible markers and selection are
exactly as before the call, with no partial apply. -/
theorem claim_C9_update_data_no_partial_apply (st : WidgetState) (d : GeoData)
    (h : (DataProcessing.validateData d).isValid = false) :
    GeoMapWidget.updateData st d = (false, st) := by
  unfold GeoMapWidget.updateData
  rw [if_neg (by simp [h])]

theorem claim_C9_update_data_no_partial_apply_witness :
    GeoMapWidget.updateData
      { originalData := some demoData, filteredData := some demoData,
        activeFilters := Filters.empty, currentZoomLevel := 1,
        currentParentId := none, visibleMarkers := [],
        selectionManager := SelectionManager.initial 10 } badLonData =
      (false,
       { originalData := some demoData, filteredData := some demoData,
         activeFilters := Filters.empty, currentZoomLevel := 1,
         currentParentId := none, visibleMarkers := [],
         selectionManager := SelectionManager.initial 10 }) :=
  claim_C9_update_data_no_partial_apply _ badLonData (by decide)
